import Mathlib

/-!
Verification of `Odex_Patcher.py` (class `OdexPatcherAdvanced`): a shallow
embedding of its filesystem state, zip handling and pipeline methods, with
theorems about the batch odex/deodex pipeline.

Modelling conventions:
* A filesystem path is its list of components (`PyPath`); `pathlib` joins
  (`a / b`) become list appends.  The normalisation `Path(".") / x = x` of
  pathlib is not modelled: the default output directory stays the component
  `"."`.  No claim observes rendered output paths.
* File contents are either raw bytes (`FileData.raw`) or a zip archive given
  by its entry list (`FileData.zip`); the byte serialisation of a zip archive
  is not modelled, no claim inspects it.
* The filesystem is an association list of files (later writes shadow
  earlier ones) plus a list of existing directories.
* The external `dex2oat` process is an oracle `List String → CompileOutcome`
  from the command line to its outcome, mirroring section 4.3's opaque
  process boundary; on success it supplies the bytes of the two artifacts.
* A Python result dict is a structure whose `Option` fields are `none`
  exactly when the corresponding key is absent from the dict.
* `ThreadPoolExecutor` batches are modelled by the sequential schedule in
  submission order; `process_files` collects `future.result()` in submission
  order, so the result list order is faithful.
-/

/-- Raw file bytes. -/
abbrev Bytes := List Nat

/-- A filesystem path as its list of components (`pathlib.Path`). -/
abbrev PyPath := List String

/-- `str(path)`: components joined by `/`. -/
def pathStr (p : PyPath) : String := String.intercalate "/" p

/-- `Path.name`: the final path component (`""` for an empty path). -/
def PyPath.name (p : PyPath) : String := p.getLastD ""

/-- Index of the last occurrence of `c` (Python `str.rfind`), `none` if absent. -/
def lastIdxOf (c : Char) : List Char → Option Nat
  | [] => none
  | a :: as =>
    match lastIdxOf c as with
    | some i => some (i + 1)
    | none => if a == c then some 0 else none

/-- `pathlib` stem of a file name: drop the last `.`-suffix when the last dot
is neither the first nor the last character of the name. -/
def stemOfName (nm : String) : String :=
  let cs := nm.data
  match lastIdxOf '.' cs with
  | some i => if 0 < i ∧ i + 1 < cs.length then ⟨cs.take i⟩ else nm
  | none => nm

/-- `Path.stem`: stem of the final component. -/
def PyPath.stem (p : PyPath) : String := stemOfName (p.getLastD "")

/-- Boolean list-prefix test (component-wise). -/
def pathUnder : PyPath → PyPath → Bool
  | [], _ => true
  | _ :: _, [] => false
  | a :: as, b :: bs => a == b && pathUnder as bs

/-- Boolean character-list prefix test. -/
def chainPre : List Char → List Char → Bool
  | [], _ => true
  | _ :: _, [] => false
  | a :: as, b :: bs => a == b && chainPre as bs

/-- Python `str.startswith`. -/
def strStartsWith (s pre : String) : Bool := chainPre pre.data s.data

/-- One zip entry: name, compression method and payload, as
`zipfile.ZipInfo` metadata plus the entry bytes. -/
structure ZipEntry where
  filename : String
  compressType : Nat
  payload : Bytes
deriving DecidableEq

/-- `zipfile.ZIP_DEFLATED`, the write-side compression of both pipelines. -/
def ZIP_DEFLATED : Nat := 8

/-- Contents of a file: raw bytes, or a well-formed zip archive. -/
inductive FileData where
  | raw (b : Bytes)
  | zip (entries : List ZipEntry)
deriving DecidableEq

/-- The bytes `ZipFile.write` reads from a file on disk.  Artifact files are
always `raw` in every run modelled here; the byte serialisation of a zip
archive is not modelled. -/
def FileData.asBytes : FileData → Bytes
  | .raw b => b
  | .zip _ => []

/-- Filesystem state: files (later writes shadow earlier entries) and the
set of existing directories. -/
structure FS where
  files : List (PyPath × FileData)
  dirs : List PyPath
deriving DecidableEq

/-- Contents of the file at `p`, if one exists. -/
def FS.lookupFile (fs : FS) (p : PyPath) : Option FileData :=
  match fs.files.find? (fun kv => kv.1 == p) with
  | some kv => some kv.2
  | none => none

/-- `Path.is_file`. -/
def FS.isFile (fs : FS) (p : PyPath) : Bool := (fs.lookupFile p).isSome

/-- `Path.is_dir`. -/
def FS.isDir (fs : FS) (p : PyPath) : Bool := fs.dirs.contains p

/-- `open(p, "wb")` / committing a zip written at `p`. -/
def FS.writeFile (fs : FS) (p : PyPath) (d : FileData) : FS :=
  ⟨(p, d) :: fs.files, fs.dirs⟩

/-- `Path.mkdir(parents=True, exist_ok=True)`: `p` and every ancestor exists
afterwards (duplicates in the directory list are harmless). -/
def FS.mkdirP (fs : FS) (p : PyPath) : FS :=
  ⟨fs.files, ((List.range p.length).map (fun i => p.take (i + 1))) ++ fs.dirs⟩

/-- `shutil.rmtree(d)`: removes `d` and every file and directory below it. -/
def FS.rmtree (fs : FS) (d : PyPath) : FS :=
  ⟨fs.files.filter (fun kv => !(pathUnder d kv.1)),
   fs.dirs.filter (fun q => !(pathUnder d q))⟩

/-- `ZipFile.namelist()`. -/
def zipNamelist (entries : List ZipEntry) : List String := entries.map (·.filename)

/-- CPython `ZipFile._RealGetContents` inserts entries into `NameToInfo` in
archive order, so `getinfo`/`read`/`open` by name resolve to the *last*
entry carrying that name. -/
def zipGetInfo (entries : List ZipEntry) (nm : String) : Option ZipEntry :=
  (entries.filter (fun e => e.filename == nm)).getLast?

/-- `ZipFile.read(nm)` (only ever evaluated for names present in the
archive, where `getinfo` cannot fail). -/
def zipReadBytes (entries : List ZipEntry) (nm : String) : Bytes :=
  match zipGetInfo entries nm with
  | some e => e.payload
  | none => []

/-- The patcher instance state fixed at construction: `self.tmp_dir` and
`self.dex2oat_path` (tool discovery itself is outside the pipeline). -/
structure Config where
  tmpDir : PyPath
  dex2oatPath : String
deriving DecidableEq

/-- Outcome of one `subprocess.run` of the external compiler: normal exit
(with the bytes it wrote to the two output files), `CalledProcessError`
(non-zero exit, captured stderr), or `FileNotFoundError` at launch. -/
inductive CompileOutcome where
  | success (oatBytes vdexBytes : Bytes)
  | calledProcessError (stderr : String)
  | fileNotFound
deriving DecidableEq

/-- The opaque external compiler: an outcome for each command line. -/
abbrev Compiler := List String → CompileOutcome

/-- The exceptions `_extract_dex` raises and `odex_apk` catches. -/
inductive PyErr where
  | fileNotFoundError (msg : String)
  | valueError (msg : String)
deriving DecidableEq

/-- `str(e)` for the exceptions above. -/
def PyErr.msg : PyErr → String
  | .fileNotFoundError m => m
  | .valueError m => m

/-- A result dict of the pipeline; each `Option` field is `none` exactly
when the dict lacks the corresponding key. -/
structure PyResult where
  status : String
  message : String
  oatPath : Option PyPath := none
  vdexPath : Option PyPath := none
  originalApk : Option PyPath := none
  outputPath : Option PyPath := none
  originalFile : Option PyPath := none
deriving DecidableEq

/-- The per-archive scratch sub-directory `self.tmp_dir / apk_path.stem`
(lines 84 and 216 of the source). -/
def scratchDir (cfg : Config) (apkPath : PyPath) : PyPath :=
  cfg.tmpDir ++ [PyPath.stem apkPath]

/-- The extracted bytecode's scratch path `output_dir / "classes.dex"`. -/
def dexScratchPath (cfg : Config) (apkPath : PyPath) : PyPath :=
  scratchDir cfg apkPath ++ ["classes.dex"]

/-- `_extract_dex` (lines 65-97): validate the source path, create the
per-archive scratch directory, stream `classes.dex` out of the archive.
Returns the filesystem as modified so far together with either the pair
`(dex path, apk path)` or the raised exception.  A `BadZipFile` on a
non-zip file is re-raised as `ValueError` (lines 96-97); the path was
checked with `is_file`, so a missing-file branch at the zip open is
unreachable and folded into the same arm. -/
def extract_dex (cfg : Config) (fs : FS) (apkPath : PyPath) :
    FS × Except PyErr (PyPath × PyPath) :=
  if fs.isFile apkPath then
    let fs1 := fs.mkdirP (scratchDir cfg apkPath)
    match fs1.lookupFile apkPath with
    | some (.zip entries) =>
      if "classes.dex" ∈ zipNamelist entries then
        (fs1.writeFile (dexScratchPath cfg apkPath)
          (.raw (zipReadBytes entries "classes.dex")),
         .ok (dexScratchPath cfg apkPath, apkPath))
      else
        (fs1, .error (.valueError ("`classes.dex` not found in " ++ pathStr apkPath)))
    | _ =>
      (fs1, .error (.valueError ("Invalid ZIP file: " ++ pathStr apkPath)))
  else
    (fs, .error (.fileNotFoundError ("APK file not found: " ++ pathStr apkPath)))

/-- `self.tmp_dir / f"{output_apk_path.stem}.oat"` (line 111): directly
under the shared scratch root. -/
def oatOutputPath (cfg : Config) (outputApkPath : PyPath) : PyPath :=
  cfg.tmpDir ++ [PyPath.stem outputApkPath ++ ".oat"]

/-- `self.tmp_dir / f"{output_apk_path.stem}.vdex"` (line 112). -/
def vdexOutputPath (cfg : Config) (outputApkPath : PyPath) : PyPath :=
  cfg.tmpDir ++ [PyPath.stem outputApkPath ++ ".vdex"]

/-- The `dex2oat` command line of `_odex_file` (lines 114-124).  A `None`
bootclasspath and an empty list behave identically in
`if bootclasspath:`, so both are the empty list here. -/
def odexCommand (cfg : Config) (dexPath outputApkPath : PyPath)
    (bootclasspath : List String) : List String :=
  [cfg.dex2oatPath,
   "--dex-file=" ++ pathStr dexPath,
   "--output-oat-file=" ++ pathStr (oatOutputPath cfg outputApkPath),
   "--oat-file-format=vdex",
   "--output-vdex-file=" ++ pathStr (vdexOutputPath cfg outputApkPath),
   "--compiler-filter=speed"] ++
  (if bootclasspath.isEmpty then [] else
    ["--boot-image=" ++ String.intercalate ":" bootclasspath])

/-- `_odex_file` (lines 99-146): build the command, run the compiler, and
return the status dict; a normal exit writes the two artifact files. -/
def odex_file (cfg : Config) (compiler : Compiler) (fs : FS)
    (dexPath outputApkPath : PyPath) (bootclasspath : List String) : FS × PyResult :=
  let oatP := oatOutputPath cfg outputApkPath
  let vdexP := vdexOutputPath cfg outputApkPath
  match compiler (odexCommand cfg dexPath outputApkPath bootclasspath) with
  | .success oatBytes vdexBytes =>
    ((fs.writeFile oatP (.raw oatBytes)).writeFile vdexP (.raw vdexBytes),
     { status := "success",
       message := "Successfully odexed " ++ PyPath.name dexPath,
       oatPath := some oatP, vdexPath := some vdexP,
       originalApk := some outputApkPath })
  | .calledProcessError stderr =>
    (fs, { status := "error",
           message := "Error odexing " ++ PyPath.name dexPath ++ ": " ++ stderr,
           originalApk := some outputApkPath })
  | .fileNotFound =>
    (fs, { status := "error",
           message := "`dex2oat` not found. Ensure Android SDK path is correct or in PATH.",
           originalApk := some outputApkPath })

/-- The sharded artifact entry name `f"oat/{name[0]}/{name}"` (lines
177-178).  The artifact file name always ends in `.oat`/`.vdex`, so it is
nonempty and `name[0]` cannot raise. -/
def shardName (nm : String) : String :=
  "oat/" ++ String.singleton (nm.front) ++ "/" ++ nm

/-- The copy loop of `_package_odex` (lines 171-174): every entry except
`classes.dex` is rewritten with its `ZipInfo` (keeping name and compression
method) and the payload `source_zip.read(item.filename)` — a by-name read. -/
def packagedEntries (sourceEntries : List ZipEntry) : List ZipEntry :=
  (sourceEntries.filter (fun item => item.filename != "classes.dex")).map
    (fun item => { item with payload := zipReadBytes sourceEntries item.filename })

/-- The output path `output_dir / f"{stem}-odexed.apk"` (lines 164-165). -/
def odexedOutputPath (outputDir : Option PyPath) (originalApkPath : PyPath) : PyPath :=
  (outputDir.getD ["."]) ++ [PyPath.stem originalApkPath ++ "-odexed.apk"]

/-- `_package_odex` (lines 148-187).  The source zip is opened first; when
that open raises, the target zip is never created.  When an artifact is
missing, `target_zip.write` raises `FileNotFoundError` after some entries
were already emitted; leaving the `with` block still closes the target
zip, committing the partial archive. -/
def package_odex (cfg : Config) (fs : FS) (originalApkPath oatP vdexP : PyPath)
    (outputDir : Option PyPath) : FS × PyResult :=
  let fs1 := fs.mkdirP (outputDir.getD ["."])
  let outP := odexedOutputPath outputDir originalApkPath
  match fs1.lookupFile originalApkPath with
  | some (.zip sourceEntries) =>
    let copied := packagedEntries sourceEntries
    match fs1.lookupFile oatP, fs1.lookupFile vdexP with
    | some oatData, some vdexData =>
      (fs1.writeFile outP (.zip (copied ++
         [⟨shardName (PyPath.name oatP), ZIP_DEFLATED, oatData.asBytes⟩,
          ⟨shardName (PyPath.name vdexP), ZIP_DEFLATED, vdexData.asBytes⟩])),
       { status := "success",
         message := "Odexed APK created at: " ++ pathStr outP,
         outputPath := some outP })
    | none, _ =>
      (fs1.writeFile outP (.zip copied),
       { status := "error", message := "Required file not found: " ++ pathStr oatP })
    | some oatData, none =>
      (fs1.writeFile outP (.zip (copied ++
         [⟨shardName (PyPath.name oatP), ZIP_DEFLATED, oatData.asBytes⟩])),
       { status := "error", message := "Required file not found: " ++ pathStr vdexP })
  | some (.raw _) =>
    (fs1, { status := "error",
            message := "Error processing ZIP file: " ++ pathStr originalApkPath })
  | none =>
    (fs1, { status := "error",
            message := "Required file not found: " ++ pathStr originalApkPath })

/-- The `finally` block of `odex_apk` (lines 214-222): remove the
per-archive scratch sub-directory when it exists.  The guards
`"oat_path" in locals()` and `"vdex_path" in locals()` are always `False`
inside `odex_apk` — `oat_path` and `vdex_path` are local variables of
`_odex_file`, visible here only as `odex_result["oat_path"]` — so neither
`os.remove` branch ever executes and the artifact files are left on disk. -/
def odexCleanup (cfg : Config) (apkPath : PyPath) (fs : FS) : FS :=
  if fs.isDir (scratchDir cfg apkPath) then fs.rmtree (scratchDir cfg apkPath) else fs

/-- The pipeline stages of one odex run, recorded in invocation order. -/
inductive Stage where
  | extract
  | compile
  | package
deriving DecidableEq

/-- Outcome of one `odex_apk` run: the filesystem after the `finally`
block, the returned dict, and the stages that were invoked. -/
structure OdexRun where
  fs : FS
  result : PyResult
  trace : List Stage
deriving DecidableEq

/-- `odex_apk` (lines 189-222): extract, compile, repackage, in that
order, short-circuiting on failure; `FileNotFoundError` and `ValueError`
from extraction are caught and returned as error dicts; the cleanup of the
`finally` block runs on every path.  On the success path the dict fields
`original_apk`/`oat_path`/`vdex_path` are always present, so the `getD`
defaults are never taken. -/
def odex_apk (cfg : Config) (compiler : Compiler) (fs : FS) (apkPath : PyPath)
    (bootclasspath : List String) (outputDir : Option PyPath) : OdexRun :=
  let ext := extract_dex cfg fs apkPath
  match ext.2 with
  | .error e =>
    { fs := odexCleanup cfg apkPath ext.1,
      result := { status := "error", message := e.msg, originalApk := some apkPath },
      trace := [.extract] }
  | .ok (dexPath, originalApk) =>
    let od := odex_file cfg compiler ext.1 dexPath originalApk bootclasspath
    if od.2.status = "success" then
      let pk := package_odex cfg od.1 (od.2.originalApk.getD originalApk)
        (od.2.oatPath.getD []) (od.2.vdexPath.getD []) outputDir
      { fs := odexCleanup cfg apkPath pk.1, result := pk.2,
        trace := [.extract, .compile, .package] }
    else
      { fs := odexCleanup cfg apkPath od.1, result := od.2,
        trace := [.extract, .compile] }

/-- The filter of the deodex copy loop (line 256): keep an entry unless
its name starts with `oat/` or is `classes.dex`. -/
def deodexKeep (item : ZipEntry) : Bool :=
  !(strStartsWith item.filename "oat/") && item.filename != "classes.dex"

/-- The deodex copy loop (lines 255-260): kept entries are rewritten with
their `ZipInfo` and the by-name payload `source_zip.read(item.filename)`. -/
def deodexEntries (sourceEntries : List ZipEntry) : List ZipEntry :=
  (sourceEntries.filter deodexKeep).map
    (fun item => { item with payload := zipReadBytes sourceEntries item.filename })

/-- The output path `output_dir / f"{stem}-deodexed.apk"` (lines 247-248). -/
def deodexedOutputPath (outputDir : Option PyPath) (apkPath : PyPath) : PyPath :=
  (outputDir.getD ["."]) ++ [PyPath.stem apkPath ++ "-deodexed.apk"]

/-- `deodex_apk` (lines 224-268).  The warning return sits inside the
`with` block, so leaving it closes the target zip and the filtered archive
is committed in the warning case exactly as in the success case; a
`BadZipFile` on the source aborts before the target zip is created. -/
def deodex_apk (cfg : Config) (fs : FS) (apkPath : PyPath)
    (outputDir : Option PyPath) : FS × PyResult :=
  if fs.isFile apkPath then
    let fs1 := fs.mkdirP (outputDir.getD ["."])
    let outP := deodexedOutputPath outputDir apkPath
    match fs1.lookupFile apkPath with
    | some (.zip sourceEntries) =>
      let foundDex := sourceEntries.any (fun item => item.filename == "classes.dex")
      let fs2 := fs1.writeFile outP (.zip (deodexEntries sourceEntries))
      if foundDex then
        (fs2, { status := "success",
                message := "Attempted deodexed APK created at: " ++ pathStr outP ++
                  " (OAT/VDex removed)",
                outputPath := some outP })
      else
        (fs2, { status := "warning",
                message := "No classes.dex found in " ++ pathStr apkPath ++
                  ". Already deodexed?",
                outputPath := some outP })
    | _ =>
      (fs1, { status := "error", message := "Invalid ZIP file: " ++ pathStr apkPath })
  else
    (fs, { status := "error", message := "APK file not found: " ++ pathStr apkPath })

/-- `process_files` (lines 270-298), under the sequential
submission-order schedule: per-file results are collected in submission
order (`for future in futures`); an unrecognised operation yields one
error dict per path with the `original_file` key and schedules nothing. -/
def process_files (cfg : Config) (compiler : Compiler) (fs : FS)
    (filePaths : List PyPath) (operation : String) (bootclasspath : List String)
    (outputDir : Option PyPath) : FS × List PyResult :=
  if operation = "odex" then
    filePaths.foldl (fun acc p =>
      let run := odex_apk cfg compiler acc.1 p bootclasspath outputDir
      (run.fs, acc.2 ++ [run.result])) (fs, [])
  else if operation = "deodex" then
    filePaths.foldl (fun acc p =>
      let run := deodex_apk cfg acc.1 p outputDir
      (run.1, acc.2 ++ [run.2])) (fs, [])
  else
    (fs, filePaths.map (fun p =>
      { status := "error", message := "Invalid operation: " ++ operation,
        originalFile := some p }))

/-- `cleanup_tmp_dir` (lines 300-306): when the scratch root exists it is
removed wholesale and recreated empty; otherwise nothing happens. -/
def cleanup_tmp_dir (cfg : Config) (fs : FS) : FS :=
  if fs.isDir cfg.tmpDir then (fs.rmtree cfg.tmpDir).mkdirP cfg.tmpDir else fs

/-- Configuration of the concrete scenarios: the default scratch root
`tmp_odex_patcher` and a `dex2oat` resolved on the PATH. -/
def demoConfig : Config := ⟨["tmp_odex_patcher"], "dex2oat"⟩

/-- A compiler that always exits 0, writing `ob`/`vb` into the two
artifact files. -/
def demoCompiler (ob vb : Bytes) : Compiler := fun _ => .success ob vb

/-! ### Helper lemmas: paths, strings, filesystem, zip archives -/

theorem pathUnder_refl (p : PyPath) : pathUnder p p = true := by
  induction p with
  | nil => rfl
  | cons a as ih => simp [pathUnder, ih]

theorem pathUnder_append_last (xs : PyPath) (a b : String) :
    pathUnder (xs ++ [a]) (xs ++ [b]) = (a == b) := by
  induction xs with
  | nil => simp [pathUnder]
  | cons x xs ih => simp [pathUnder, ih]

theorem length_le_of_pathUnder (d q : PyPath) (h : pathUnder d q = true) :
    d.length ≤ q.length := by
  induction d generalizing q with
  | nil => simp
  | cons a as ih =>
    cases q with
    | nil => simp [pathUnder] at h
    | cons b bs =>
      simp [pathUnder] at h
      simpa using ih bs h.2

theorem take_eq_self_of_pathUnder (p : PyPath) (k : Nat) (h : pathUnder p (p.take k) = true) :
    p.take k = p := by
  have hle := length_le_of_pathUnder _ _ h
  simp at hle
  exact List.take_of_length_le hle

theorem chainPre_append (l s : List Char) : chainPre l (l ++ s) = true := by
  induction l with
  | nil => rfl
  | cons a as ih => simp [chainPre, ih]

theorem strStartsWith_append (pre s : String) : strStartsWith (pre ++ s) pre = true := by
  simp [strStartsWith, String.data_append, chainPre_append]

theorem str_append_ne_append (s a b : String) (h : a ≠ b) : s ++ a ≠ s ++ b := by
  intro hc
  apply h
  have hd := congrArg String.data hc
  rw [String.data_append, String.data_append] at hd
  exact String.ext (List.append_cancel_left hd)

theorem FS.lookupFile_writeFile_self (fs : FS) (p : PyPath) (d : FileData) :
    (fs.writeFile p d).lookupFile p = some d := by
  simp [FS.lookupFile, FS.writeFile, List.find?]

theorem FS.lookupFile_writeFile_ne (fs : FS) (p q : PyPath) (d : FileData) (h : q ≠ p) :
    (fs.writeFile p d).lookupFile q = fs.lookupFile q := by
  simp [FS.lookupFile, FS.writeFile, List.find?, show (p == q) = false by
    simpa using fun hc => h hc.symm]

theorem FS.lookupFile_mkdirP (fs : FS) (p q : PyPath) :
    (fs.mkdirP p).lookupFile q = fs.lookupFile q := rfl

theorem find?_key_filter_not_under (d q : PyPath) (l : List (PyPath × FileData)) :
    (l.filter (fun kv => !(pathUnder d kv.1))).find? (fun kv => kv.1 == q) =
      if pathUnder d q = true then none else l.find? (fun kv => kv.1 == q) := by
  induction l with
  | nil => simp
  | cons hd tl ih =>
    by_cases hq : hd.1 = q
    · subst hq
      by_cases hu : pathUnder d hd.1
      · simp [List.filter_cons, hu, ih, List.find?]
      · simp [List.filter_cons, hu, List.find?]
    · have hb : (hd.1 == q) = false := by simpa using hq
      by_cases hu : pathUnder d hd.1
      · simp [List.filter_cons, hu, ih, List.find?, hb]
      · simp [List.filter_cons, hu, List.find?, hb, ih]

theorem FS.lookupFile_rmtree (fs : FS) (d q : PyPath) :
    (fs.rmtree d).lookupFile q =
      if pathUnder d q = true then none else fs.lookupFile q := by
  simp only [FS.lookupFile, FS.rmtree, find?_key_filter_not_under]
  by_cases hu : pathUnder d q <;> simp [hu]

theorem FS.isDir_mkdirP_self (fs : FS) (p : PyPath) (h : p ≠ []) :
    (fs.mkdirP p).isDir p = true := by
  have hp : 0 < p.length := List.length_pos.mpr h
  simp [FS.mkdirP, FS.isDir, List.elem_eq_mem]
  exact .inl ⟨p.length - 1, by omega, by omega⟩

theorem FS.isDir_mkdirP (fs : FS) (p q : PyPath) :
    (fs.mkdirP p).isDir q =
      (decide (q ∈ (List.range p.length).map (fun i => p.take (i + 1))) || fs.isDir q) := by
  simp [FS.mkdirP, FS.isDir, List.elem_eq_mem]

theorem FS.isDir_rmtree (fs : FS) (d q : PyPath) :
    (fs.rmtree d).isDir q = (!(pathUnder d q) && fs.isDir q) := by
  simp only [FS.rmtree, FS.isDir, List.elem_eq_mem, List.mem_filter]
  by_cases hu : pathUnder d q <;> by_cases hm : q ∈ fs.dirs <;> simp [hu, hm]

theorem zipNamelist_filter (p : String → Bool) (E : List ZipEntry) :
    zipNamelist (E.filter (fun e => p e.filename)) = (zipNamelist E).filter p := by
  induction E with
  | nil => rfl
  | cons e es ih =>
    by_cases hp : p e.filename <;> simp [zipNamelist, List.filter_cons, hp] <;>
      simpa [zipNamelist] using ih

theorem zipNamelist_payloadMap (E : List ZipEntry) (f : ZipEntry → Bytes) :
    zipNamelist (E.map (fun e => { e with payload := f e })) = zipNamelist E := by
  induction E with
  | nil => rfl
  | cons e es ih => simpa [zipNamelist] using ih

theorem mem_zipNamelist (nm : String) (E : List ZipEntry) :
    nm ∈ zipNamelist E ↔ ∃ e ∈ E, e.filename = nm := by
  simp [zipNamelist]

theorem zipReadBytes_eq_payload (E : List ZipEntry) (e : ZipEntry)
    (hnd : (zipNamelist E).Nodup) (he : e ∈ E) :
    zipReadBytes E e.filename = e.payload := by
  induction E with
  | nil => simp at he
  | cons hd tl ih =>
    have hnd2 : (zipNamelist tl).Nodup := by
      simpa [zipNamelist] using hnd.of_cons
    have hhd : hd.filename ∉ zipNamelist tl := by
      have hx := hnd
      simp only [zipNamelist, List.map_cons, List.nodup_cons] at hx
      simpa [zipNamelist] using hx.1
    rw [List.mem_cons] at he
    rcases he with he | he
    · have hfil : tl.filter (fun x => x.filename == hd.filename) = [] := by
        rw [List.filter_eq_nil_iff]
        intro x hx
        simp only [beq_iff_eq]
        intro hxeq
        exact hhd ((mem_zipNamelist hd.filename tl).mpr ⟨x, hx, hxeq⟩)
      subst he
      simp [zipReadBytes, zipGetInfo, List.filter_cons, hfil]
    · have hne : (hd.filename == e.filename) = false := by
        simp only [beq_eq_false_iff_ne, ne_eq]
        intro hxeq
        exact hhd ((mem_zipNamelist hd.filename tl).mpr ⟨e, he, hxeq.symm⟩)
      have hrec := ih hnd2 he
      simpa [zipReadBytes, zipGetInfo, List.filter_cons, hne] using hrec

theorem str_ne_self_append (s t : String) (h : t ≠ "") : s ≠ s ++ t := by
  intro hc
  apply h
  have hd := congrArg String.data hc
  rw [String.data_append] at hd
  have hlen := congrArg List.length hd
  rw [List.length_append] at hlen
  have h0 : t.data.length = 0 := by omega
  exact String.ext (by simp [List.length_eq_zero.mp h0])

theorem scratchDir_ne_nil (cfg : Config) (p : PyPath) : scratchDir cfg p ≠ [] := by
  simp [scratchDir]

theorem name_append_singleton (xs : PyPath) (a : String) : PyPath.name (xs ++ [a]) = a := by
  simp [PyPath.name]

theorem ne_append_singleton (xs ys : PyPath) (a b : String) (h : a ≠ b) :
    xs ++ [a] ≠ ys ++ [b] := by
  intro hc
  have hlast := congrArg List.getLast? hc
  simp [List.getLast?_append] at hlast
  exact h hlast

theorem pathUnder_scratch_sibling (cfg : Config) (p : PyPath) (suf : String) (h : suf ≠ "") :
    pathUnder (scratchDir cfg p) (cfg.tmpDir ++ [PyPath.stem p ++ suf]) = false := by
  rw [scratchDir, pathUnder_append_last]
  simp only [beq_eq_false_iff_ne, ne_eq]
  exact str_ne_self_append _ _ h

theorem oat_ne_vdex (cfg : Config) (p : PyPath) :
    oatOutputPath cfg p ≠ vdexOutputPath cfg p := by
  exact ne_append_singleton _ _ _ _ (str_append_ne_append _ _ _ (by decide))

theorem odex_file_originalApk (cfg : Config) (compiler : Compiler) (fs : FS)
    (dexPath outputApkPath : PyPath) (bcp : List String) :
    (odex_file cfg compiler fs dexPath outputApkPath bcp).2.originalApk =
      some outputApkPath := by
  unfold odex_file
  rcases compiler (odexCommand cfg dexPath outputApkPath bcp) <;> rfl

theorem package_odex_originalApk_none (cfg : Config) (fs : FS)
    (originalApkPath oatP vdexP : PyPath) (outputDir : Option PyPath) :
    (package_odex cfg fs originalApkPath oatP vdexP outputDir).2.originalApk = none := by
  unfold package_odex
  dsimp only
  split
  · split <;> rfl
  · rfl
  · rfl

theorem deodex_apk_noField (cfg : Config) (fs : FS) (p : PyPath) (od : Option PyPath) :
    (deodex_apk cfg fs p od).2.originalApk = none ∧
      (deodex_apk cfg fs p od).2.originalFile = none := by
  unfold deodex_apk
  dsimp only
  split
  · split
    · split <;> exact ⟨rfl, rfl⟩
    · exact ⟨rfl, rfl⟩
  · exact ⟨rfl, rfl⟩

theorem lookup_odexCleanup (cfg : Config) (apkPath : PyPath) (fs : FS) (q : PyPath)
    (hq : pathUnder (scratchDir cfg apkPath) q = false) :
    (odexCleanup cfg apkPath fs).lookupFile q = fs.lookupFile q := by
  unfold odexCleanup
  split
  · rw [FS.lookupFile_rmtree, hq]
    simp
  · rfl

theorem odex_apk_success (cfg : Config) (compiler : Compiler) (fs : FS)
    (apkPath : PyPath) (bcp : List String) (outputDir : Option PyPath)
    (E : List ZipEntry) (ob vb : Bytes)
    (h1 : fs.lookupFile apkPath = some (.zip E))
    (h2 : "classes.dex" ∈ zipNamelist E)
    (h3 : ∀ cmd, compiler cmd = .success ob vb)
    (h4 : apkPath ≠ dexScratchPath cfg apkPath)
    (h5 : apkPath ≠ oatOutputPath cfg apkPath)
    (h6 : apkPath ≠ vdexOutputPath cfg apkPath) :
    odex_apk cfg compiler fs apkPath bcp outputDir =
      { fs := odexCleanup cfg apkPath
          ((((((fs.mkdirP (scratchDir cfg apkPath)).writeFile (dexScratchPath cfg apkPath)
              (.raw (zipReadBytes E "classes.dex"))).writeFile (oatOutputPath cfg apkPath)
              (.raw ob)).writeFile (vdexOutputPath cfg apkPath)
              (.raw vb)).mkdirP (outputDir.getD ["."])).writeFile
            (odexedOutputPath outputDir apkPath)
            (.zip (packagedEntries E ++
              [⟨shardName (PyPath.stem apkPath ++ ".oat"), ZIP_DEFLATED, ob⟩,
               ⟨shardName (PyPath.stem apkPath ++ ".vdex"), ZIP_DEFLATED, vb⟩]))),
        result := ⟨"success", "Odexed APK created at: " ++
          pathStr (odexedOutputPath outputDir apkPath), none, none, none,
          some (odexedOutputPath outputDir apkPath), none⟩,
        trace := [.extract, .compile, .package] } := by
  have hext : extract_dex cfg fs apkPath =
      ((fs.mkdirP (scratchDir cfg apkPath)).writeFile (dexScratchPath cfg apkPath)
        (.raw (zipReadBytes E "classes.dex")), .ok (dexScratchPath cfg apkPath, apkPath)) := by
    simp [extract_dex, FS.isFile, FS.lookupFile_mkdirP, h1, h2]
  have hodex : odex_file cfg compiler
      ((fs.mkdirP (scratchDir cfg apkPath)).writeFile (dexScratchPath cfg apkPath)
        (.raw (zipReadBytes E "classes.dex"))) (dexScratchPath cfg apkPath) apkPath bcp =
      ((((fs.mkdirP (scratchDir cfg apkPath)).writeFile (dexScratchPath cfg apkPath)
          (.raw (zipReadBytes E "classes.dex"))).writeFile (oatOutputPath cfg apkPath)
          (.raw ob)).writeFile (vdexOutputPath cfg apkPath) (.raw vb),
       { status := "success",
         message := "Successfully odexed " ++ PyPath.name (dexScratchPath cfg apkPath),
         oatPath := some (oatOutputPath cfg apkPath),
         vdexPath := some (vdexOutputPath cfg apkPath),
         originalApk := some apkPath }) := by
    simp [odex_file, h3]
  have hlookA : (((((fs.mkdirP (scratchDir cfg apkPath)).writeFile (dexScratchPath cfg apkPath)
      (.raw (zipReadBytes E "classes.dex"))).writeFile (oatOutputPath cfg apkPath)
      (.raw ob)).writeFile (vdexOutputPath cfg apkPath)
      (.raw vb)).mkdirP (outputDir.getD ["."])).lookupFile apkPath = some (.zip E) := by
    rw [FS.lookupFile_mkdirP, FS.lookupFile_writeFile_ne _ _ _ _ h6,
      FS.lookupFile_writeFile_ne _ _ _ _ h5, FS.lookupFile_writeFile_ne _ _ _ _ h4,
      FS.lookupFile_mkdirP, h1]
  have hlookOat : (((((fs.mkdirP (scratchDir cfg apkPath)).writeFile (dexScratchPath cfg apkPath)
      (.raw (zipReadBytes E "classes.dex"))).writeFile (oatOutputPath cfg apkPath)
      (.raw ob)).writeFile (vdexOutputPath cfg apkPath)
      (.raw vb)).mkdirP (outputDir.getD ["."])).lookupFile (oatOutputPath cfg apkPath) =
      some (.raw ob) := by
    rw [FS.lookupFile_mkdirP, FS.lookupFile_writeFile_ne _ _ _ _ (oat_ne_vdex cfg apkPath),
      FS.lookupFile_writeFile_self]
  have hlookVdex : (((((fs.mkdirP (scratchDir cfg apkPath)).writeFile (dexScratchPath cfg apkPath)
      (.raw (zipReadBytes E "classes.dex"))).writeFile (oatOutputPath cfg apkPath)
      (.raw ob)).writeFile (vdexOutputPath cfg apkPath)
      (.raw vb)).mkdirP (outputDir.getD ["."])).lookupFile (vdexOutputPath cfg apkPath) =
      some (.raw vb) := by
    rw [FS.lookupFile_mkdirP, FS.lookupFile_writeFile_self]
  have hpack : package_odex cfg
      ((((fs.mkdirP (scratchDir cfg apkPath)).writeFile (dexScratchPath cfg apkPath)
        (.raw (zipReadBytes E "classes.dex"))).writeFile (oatOutputPath cfg apkPath)
        (.raw ob)).writeFile (vdexOutputPath cfg apkPath) (.raw vb)) apkPath
      (oatOutputPath cfg apkPath) (vdexOutputPath cfg apkPath) outputDir =
      ((((((fs.mkdirP (scratchDir cfg apkPath)).writeFile (dexScratchPath cfg apkPath)
          (.raw (zipReadBytes E "classes.dex"))).writeFile (oatOutputPath cfg apkPath)
          (.raw ob)).writeFile (vdexOutputPath cfg apkPath)
          (.raw vb)).mkdirP (outputDir.getD ["."])).writeFile
        (odexedOutputPath outputDir apkPath)
        (.zip (packagedEntries E ++
          [⟨shardName (PyPath.stem apkPath ++ ".oat"), ZIP_DEFLATED, ob⟩,
           ⟨shardName (PyPath.stem apkPath ++ ".vdex"), ZIP_DEFLATED, vb⟩])),
       ⟨"success", "Odexed APK created at: " ++ pathStr (odexedOutputPath outputDir apkPath),
        none, none, none, some (odexedOutputPath outputDir apkPath), none⟩) := by
    unfold package_odex
    dsimp only
    rw [hlookA, hlookOat, hlookVdex]
    simp only [oatOutputPath, vdexOutputPath, name_append_singleton, FileData.asBytes]
  simp only [odex_apk, hext, hodex, hpack, Option.getD_some]
  simp

theorem odex_apk_no_dex (cfg : Config) (compiler : Compiler) (fs : FS)
    (apkPath : PyPath) (bcp : List String) (outputDir : Option PyPath)
    (E : List ZipEntry)
    (h1 : fs.lookupFile apkPath = some (.zip E))
    (h2 : "classes.dex" ∉ zipNamelist E) :
    odex_apk cfg compiler fs apkPath bcp outputDir =
      { fs := odexCleanup cfg apkPath (fs.mkdirP (scratchDir cfg apkPath)),
        result := ⟨"error", "`classes.dex` not found in " ++ pathStr apkPath,
          none, none, some apkPath, none, none⟩,
        trace := [.extract] } := by
  have hext : extract_dex cfg fs apkPath =
      (fs.mkdirP (scratchDir cfg apkPath),
       .error (.valueError ("`classes.dex` not found in " ++ pathStr apkPath))) := by
    simp [extract_dex, FS.isFile, FS.lookupFile_mkdirP, h1, h2]
  simp [odex_apk, hext, PyErr.msg]

theorem odex_apk_not_file (cfg : Config) (compiler : Compiler) (fs : FS)
    (apkPath : PyPath) (bcp : List String) (outputDir : Option PyPath)
    (h : fs.isFile apkPath = false) :
    odex_apk cfg compiler fs apkPath bcp outputDir =
      { fs := odexCleanup cfg apkPath fs,
        result := ⟨"error", "APK file not found: " ++ pathStr apkPath,
          none, none, some apkPath, none, none⟩,
        trace := [.extract] } := by
  have hext : extract_dex cfg fs apkPath =
      (fs, .error (.fileNotFoundError ("APK file not found: " ++ pathStr apkPath))) := by
    simp [extract_dex, h]
  simp [odex_apk, hext, PyErr.msg]

theorem deodex_apk_zip (cfg : Config) (fs : FS) (apkPath : PyPath)
    (outputDir : Option PyPath) (E : List ZipEntry)
    (h1 : fs.lookupFile apkPath = some (.zip E)) :
    deodex_apk cfg fs apkPath outputDir =
      ((fs.mkdirP (outputDir.getD ["."])).writeFile (deodexedOutputPath outputDir apkPath)
         (.zip (deodexEntries E)),
       if E.any (fun item => item.filename == "classes.dex") then
         ⟨"success", "Attempted deodexed APK created at: " ++
            pathStr (deodexedOutputPath outputDir apkPath) ++ " (OAT/VDex removed)",
          none, none, none, some (deodexedOutputPath outputDir apkPath), none⟩
       else
         ⟨"warning", "No classes.dex found in " ++ pathStr apkPath ++ ". Already deodexed?",
          none, none, none, some (deodexedOutputPath outputDir apkPath), none⟩) := by
  have hfile : fs.isFile apkPath = true := by simp [FS.isFile, h1]
  unfold deodex_apk
  rw [hfile]
  dsimp only
  rw [FS.lookupFile_mkdirP, h1]
  dsimp only
  by_cases hd : E.any (fun item => item.filename == "classes.dex") <;> simp [hd]

theorem extract_dex_ok (cfg : Config) (fs : FS) (p d o : PyPath)
    (h : (extract_dex cfg fs p).2 = .ok (d, o)) :
    d = dexScratchPath cfg p ∧ o = p := by
  unfold extract_dex at h
  dsimp only at h
  split at h
  · split at h
    · split at h
      · simp at h
        exact ⟨h.1.symm, h.2.symm⟩
      · simp at h
    · simp at h
  · simp at h

theorem package_odex_noOrigin (cfg : Config) (fs : FS)
    (originalApkPath oatP vdexP : PyPath) (outputDir : Option PyPath) :
    (package_odex cfg fs originalApkPath oatP vdexP outputDir).2.originalApk = none ∧
    (package_odex cfg fs originalApkPath oatP vdexP outputDir).2.originalFile = none := by
  unfold package_odex
  dsimp only
  split
  · split <;> exact ⟨rfl, rfl⟩
  · exact ⟨rfl, rfl⟩
  · exact ⟨rfl, rfl⟩

theorem zipNamelist_packagedEntries (E : List ZipEntry) :
    zipNamelist (packagedEntries E) = (zipNamelist E).filter (fun nm => nm != "classes.dex") := by
  unfold packagedEntries
  rw [zipNamelist_payloadMap]
  exact zipNamelist_filter (fun nm => nm != "classes.dex") E

theorem zipNamelist_deodexEntries (E : List ZipEntry) :
    zipNamelist (deodexEntries E) =
      (zipNamelist E).filter
        (fun nm => !(strStartsWith nm "oat/") && nm != "classes.dex") := by
  unfold deodexEntries
  rw [zipNamelist_payloadMap]
  exact zipNamelist_filter (fun nm => !(strStartsWith nm "oat/") && nm != "classes.dex") E

/-- C1: the claim says the per-archive scratch sub-directory *and* the
compiled artifacts `<base>.oat`/`<base>.vdex` are gone after `odex_apk`
returns.  The scratch sub-directory (and the extracted dex in it) is
indeed removed, but the two artifact files survive: the cleanup guard
`"oat_path" in locals()` is always `False` inside `odex_apk`, since
`oat_path` is a local of `_odex_file`.  Evaluated on a concrete
successful run. -/
theorem C1_artifacts_survive_cleanup :
    (odex_apk demoConfig (demoCompiler [7] [8])
        ⟨[(["app.apk"], .zip [⟨"classes.dex", 8, [0]⟩, ⟨"res", 0, [1]⟩])], []⟩
        ["app.apk"] [] none).result.status = "success" ∧
    (odex_apk demoConfig (demoCompiler [7] [8])
        ⟨[(["app.apk"], .zip [⟨"classes.dex", 8, [0]⟩, ⟨"res", 0, [1]⟩])], []⟩
        ["app.apk"] [] none).fs.isDir ["tmp_odex_patcher", "app"] = false ∧
    (odex_apk demoConfig (demoCompiler [7] [8])
        ⟨[(["app.apk"], .zip [⟨"classes.dex", 8, [0]⟩, ⟨"res", 0, [1]⟩])], []⟩
        ["app.apk"] [] none).fs.isFile ["tmp_odex_patcher", "app", "classes.dex"] = false ∧
    (odex_apk demoConfig (demoCompiler [7] [8])
        ⟨[(["app.apk"], .zip [⟨"classes.dex", 8, [0]⟩, ⟨"res", 0, [1]⟩])], []⟩
        ["app.apk"] [] none).fs.isFile ["tmp_odex_patcher", "app.oat"] = true ∧
    (odex_apk demoConfig (demoCompiler [7] [8])
        ⟨[(["app.apk"], .zip [⟨"classes.dex", 8, [0]⟩, ⟨"res", 0, [1]⟩])], []⟩
        ["app.apk"] [] none).fs.isFile ["tmp_odex_patcher", "app.vdex"] = true := by
  decide

/-- C8: the compiler argument list carries the dex input, the oat output,
the vdex output and the fixed `speed` filter, and the colon-joined
boot-image argument is appended exactly when the boot classpath is
non-empty. -/
theorem C8_compiler_argument_contract (cfg : Config) (dexPath outputApkPath : PyPath)
    (bcp : List String) :
    ("--dex-file=" ++ pathStr dexPath) ∈ odexCommand cfg dexPath outputApkPath bcp ∧
    ("--output-oat-file=" ++ pathStr (oatOutputPath cfg outputApkPath)) ∈
      odexCommand cfg dexPath outputApkPath bcp ∧
    ("--output-vdex-file=" ++ pathStr (vdexOutputPath cfg outputApkPath)) ∈
      odexCommand cfg dexPath outputApkPath bcp ∧
    "--compiler-filter=speed" ∈ odexCommand cfg dexPath outputApkPath bcp ∧
    (bcp = [] → odexCommand cfg dexPath outputApkPath bcp =
      [cfg.dex2oatPath,
       "--dex-file=" ++ pathStr dexPath,
       "--output-oat-file=" ++ pathStr (oatOutputPath cfg outputApkPath),
       "--oat-file-format=vdex",
       "--output-vdex-file=" ++ pathStr (vdexOutputPath cfg outputApkPath),
       "--compiler-filter=speed"]) ∧
    (bcp ≠ [] → odexCommand cfg dexPath outputApkPath bcp =
      [cfg.dex2oatPath,
       "--dex-file=" ++ pathStr dexPath,
       "--output-oat-file=" ++ pathStr (oatOutputPath cfg outputApkPath),
       "--oat-file-format=vdex",
       "--output-vdex-file=" ++ pathStr (vdexOutputPath cfg outputApkPath),
       "--compiler-filter=speed"] ++
      ["--boot-image=" ++ String.intercalate ":" bcp]) := by
  rcases bcp with _ | ⟨b, bs⟩ <;> simp [odexCommand]

/-- C9: the compile stage's artifact paths are `<stem>.oat`/`<stem>.vdex`
directly under the shared scratch root (one component below `tmp_dir`,
not inside the per-archive sub-directory), so any two archives with the
same stem get identical artifact paths. -/
theorem C9_artifact_paths_shared_root (cfg : Config) (p q : PyPath)
    (h : PyPath.stem p = PyPath.stem q) :
    oatOutputPath cfg p = cfg.tmpDir ++ [PyPath.stem p ++ ".oat"] ∧
    vdexOutputPath cfg p = cfg.tmpDir ++ [PyPath.stem p ++ ".vdex"] ∧
    pathUnder (scratchDir cfg p) (oatOutputPath cfg p) = false ∧
    pathUnder (scratchDir cfg p) (vdexOutputPath cfg p) = false ∧
    oatOutputPath cfg p = oatOutputPath cfg q ∧
    vdexOutputPath cfg p = vdexOutputPath cfg q := by
  refine ⟨rfl, rfl, ?_, ?_, ?_, ?_⟩
  · exact pathUnder_scratch_sibling cfg p ".oat" (by decide)
  · exact pathUnder_scratch_sibling cfg p ".vdex" (by decide)
  · simp [oatOutputPath, h]
  · simp [vdexOutputPath, h]

/-- C9 witness: two archives in different directories share the stem
`app`, and the compile stage computes the same artifact path for both. -/
theorem C9_witness :
    PyPath.stem ["a", "app.apk"] = PyPath.stem ["b", "app.apk"] ∧
    oatOutputPath demoConfig ["a", "app.apk"] = oatOutputPath demoConfig ["b", "app.apk"] := by
  have h := C9_artifact_paths_shared_root demoConfig ["a", "app.apk"] ["b", "app.apk"] (by decide)
  exact ⟨by decide, h.2.2.2.2.1⟩

/-- C10: when the scratch root exists, `cleanup_tmp_dir` removes it with
everything below it and recreates it empty; when it does not exist the
filesystem is untouched (and, being a total function of the state, the
model raises nothing on either path).  `tmp_dir` is a nonempty path:
`Path("")` does not denote the empty component list. -/
theorem C10_cleanup_tmp_dir (cfg : Config) (fs : FS) (hne : cfg.tmpDir ≠ []) :
    (fs.isDir cfg.tmpDir = true →
      (cleanup_tmp_dir cfg fs).isDir cfg.tmpDir = true ∧
      (∀ q, pathUnder cfg.tmpDir q = true →
        (cleanup_tmp_dir cfg fs).isFile q = false ∧
        (q ≠ cfg.tmpDir → (cleanup_tmp_dir cfg fs).isDir q = false))) ∧
    (fs.isDir cfg.tmpDir = false → cleanup_tmp_dir cfg fs = fs) := by
  constructor
  · intro hdir
    have hclean : cleanup_tmp_dir cfg fs = (fs.rmtree cfg.tmpDir).mkdirP cfg.tmpDir := by
      simp [cleanup_tmp_dir, hdir]
    rw [hclean]
    refine ⟨FS.isDir_mkdirP_self _ _ hne, ?_⟩
    intro q hq
    constructor
    · simp [FS.isFile, FS.lookupFile_mkdirP, FS.lookupFile_rmtree, hq]
    · intro hqne
      rw [FS.isDir_mkdirP, FS.isDir_rmtree, hq]
      simp only [Bool.not_true, Bool.false_and, Bool.or_false]
      simp only [decide_eq_false_iff_not, List.mem_map, List.mem_range, not_exists]
      intro i hi
      apply hqne
      have hqe : cfg.tmpDir.take (i + 1) = q := hi.2
      rw [← hqe]
      apply take_eq_self_of_pathUnder
      rw [hqe]
      exact hq
  · intro hdir
    simp [cleanup_tmp_dir, hdir]

/-- C10 witness: a scratch root holding a file and a sub-directory is
recreated empty; an unrelated directory survives. -/
theorem C10_witness :
    (cleanup_tmp_dir demoConfig
      ⟨[(["tmp_odex_patcher", "z"], .raw [1])],
       [["tmp_odex_patcher"], ["tmp_odex_patcher", "sub"], ["other"]]⟩).isDir
      ["tmp_odex_patcher"] = true ∧
    (cleanup_tmp_dir demoConfig
      ⟨[(["tmp_odex_patcher", "z"], .raw [1])],
       [["tmp_odex_patcher"], ["tmp_odex_patcher", "sub"], ["other"]]⟩).isFile
      ["tmp_odex_patcher", "z"] = false ∧
    (cleanup_tmp_dir demoConfig
      ⟨[(["tmp_odex_patcher", "z"], .raw [1])],
       [["tmp_odex_patcher"], ["tmp_odex_patcher", "sub"], ["other"]]⟩).isDir
      ["tmp_odex_patcher", "sub"] = false := by
  have h := C10_cleanup_tmp_dir demoConfig
    ⟨[(["tmp_odex_patcher", "z"], .raw [1])],
     [["tmp_odex_patcher"], ["tmp_odex_patcher", "sub"], ["other"]]⟩ (by decide)
  have hmain := h.1 (by decide)
  refine ⟨hmain.1, (hmain.2 ["tmp_odex_patcher", "z"] (by decide)).1,
    (hmain.2 ["tmp_odex_patcher", "sub"] (by decide)).2 (by decide)⟩

/-- C2 (amended): odex results carry `original_apk` exactly when the
repackage stage was not reached — extraction and compile errors have it,
while `_package_odex` results (odex success and its errors) do not; no
`deodex_apk` result carries an originating-path field; invalid-operation
results from `process_files` carry `original_file`. -/
theorem C2_originating_path_fields :
    (∀ cfg compiler fs apkPath bcp outputDir,
      (Stage.package ∉ (odex_apk cfg compiler fs apkPath bcp outputDir).trace →
        (odex_apk cfg compiler fs apkPath bcp outputDir).result.originalApk = some apkPath) ∧
      (Stage.package ∈ (odex_apk cfg compiler fs apkPath bcp outputDir).trace →
        (odex_apk cfg compiler fs apkPath bcp outputDir).result.originalApk = none ∧
        (odex_apk cfg compiler fs apkPath bcp outputDir).result.originalFile = none)) ∧
    (∀ cfg fs apkPath outputDir,
      (deodex_apk cfg fs apkPath outputDir).2.originalApk = none ∧
      (deodex_apk cfg fs apkPath outputDir).2.originalFile = none) ∧
    (∀ cfg compiler fs paths operation bcp outputDir,
      operation ≠ "odex" → operation ≠ "deodex" →
      ∀ r ∈ (process_files cfg compiler fs paths operation bcp outputDir).2,
        r.status = "error" ∧ r.originalFile ≠ none) := by
  refine ⟨?_, deodex_apk_noField, ?_⟩
  · intro cfg compiler fs apkPath bcp outputDir
    rcases hext : (extract_dex cfg fs apkPath).2 with e | ⟨dexP, origP⟩
    · have hrun : odex_apk cfg compiler fs apkPath bcp outputDir =
          { fs := odexCleanup cfg apkPath (extract_dex cfg fs apkPath).1,
            result := { status := "error", message := e.msg, originalApk := some apkPath },
            trace := [.extract] } := by
        simp only [odex_apk]
        rw [hext]
      rw [hrun]
      exact ⟨fun _ => rfl, fun hmem => by simp at hmem⟩
    · obtain ⟨hdex, horig⟩ := extract_dex_ok cfg fs apkPath dexP origP hext
      rw [hdex, horig] at hext
      by_cases hst : (odex_file cfg compiler (extract_dex cfg fs apkPath).1
          (dexScratchPath cfg apkPath) apkPath bcp).2.status = "success"
      · have hrun : odex_apk cfg compiler fs apkPath bcp outputDir =
            { fs := odexCleanup cfg apkPath (package_odex cfg
                (odex_file cfg compiler (extract_dex cfg fs apkPath).1
                  (dexScratchPath cfg apkPath) apkPath bcp).1
                ((odex_file cfg compiler (extract_dex cfg fs apkPath).1
                  (dexScratchPath cfg apkPath) apkPath bcp).2.originalApk.getD apkPath)
                ((odex_file cfg compiler (extract_dex cfg fs apkPath).1
                  (dexScratchPath cfg apkPath) apkPath bcp).2.oatPath.getD [])
                ((odex_file cfg compiler (extract_dex cfg fs apkPath).1
                  (dexScratchPath cfg apkPath) apkPath bcp).2.vdexPath.getD [])
                outputDir).1,
              result := (package_odex cfg
                (odex_file cfg compiler (extract_dex cfg fs apkPath).1
                  (dexScratchPath cfg apkPath) apkPath bcp).1
                ((odex_file cfg compiler (extract_dex cfg fs apkPath).1
                  (dexScratchPath cfg apkPath) apkPath bcp).2.originalApk.getD apkPath)
                ((odex_file cfg compiler (extract_dex cfg fs apkPath).1
                  (dexScratchPath cfg apkPath) apkPath bcp).2.oatPath.getD [])
                ((odex_file cfg compiler (extract_dex cfg fs apkPath).1
                  (dexScratchPath cfg apkPath) apkPath bcp).2.vdexPath.getD [])
                outputDir).2,
              trace := [.extract, .compile, .package] } := by
          simp only [odex_apk]
          rw [hext]
          dsimp only
          rw [if_pos hst]
        rw [hrun]
        refine ⟨fun hmem => absurd (by simp) hmem, fun _ => ?_⟩
        exact package_odex_noOrigin cfg _ _ _ _ outputDir
      · have hrun : odex_apk cfg compiler fs apkPath bcp outputDir =
            { fs := odexCleanup cfg apkPath (odex_file cfg compiler
                (extract_dex cfg fs apkPath).1 (dexScratchPath cfg apkPath) apkPath bcp).1,
              result := (odex_file cfg compiler (extract_dex cfg fs apkPath).1
                (dexScratchPath cfg apkPath) apkPath bcp).2,
              trace := [.extract, .compile] } := by
          simp only [odex_apk]
          rw [hext]
          dsimp only
          rw [if_neg hst]
        rw [hrun]
        exact ⟨fun _ => odex_file_originalApk cfg compiler _ _ apkPath bcp,
          fun hmem => by simp at hmem⟩
  · intro cfg compiler fs paths operation bcp outputDir hop1 hop2 r hr
    rw [process_files, if_neg hop1, if_neg hop2] at hr
    simp only [List.mem_map] at hr
    obtain ⟨p, hp, hpr⟩ := hr
    rw [← hpr]
    exact ⟨rfl, by simp⟩

/-- C2 counterexample: a fully successful odex run returns a result dict
with no `original_apk`/`original_file` key — the input `myapp.apk` is not
referenced by any field of the result. -/
theorem C2_counterexample :
    (odex_apk demoConfig (demoCompiler [7] [8])
        ⟨[(["myapp.apk"], .zip [⟨"classes.dex", 8, [0]⟩, ⟨"res", 0, [1]⟩])], []⟩
        ["myapp.apk"] [] none).result =
      ⟨"success", "Odexed APK created at: ./myapp-odexed.apk", none, none, none,
       some [".", "myapp-odexed.apk"], none⟩ := by
  decide

/-- C4 (amended): when the source archive's entry names are distinct,
every non-excluded entry of both repackagers appears in the output with
its name, payload and compression method unchanged — the entry itself is
a member of the output entry list. -/
theorem C4_entry_fidelity (E : List ZipEntry) (hnd : (zipNamelist E).Nodup) :
    (∀ e ∈ E, e.filename ≠ "classes.dex" → e ∈ packagedEntries E) ∧
    (∀ e ∈ E, deodexKeep e = true → e ∈ deodexEntries E) := by
  constructor
  · intro e he hkeep
    unfold packagedEntries
    refine List.mem_map.mpr ⟨e, List.mem_filter.mpr ⟨he, by simp [hkeep]⟩, ?_⟩
    rw [zipReadBytes_eq_payload E e hnd he]
  · intro e he hkeep
    unfold deodexEntries
    refine List.mem_map.mpr ⟨e, List.mem_filter.mpr ⟨he, hkeep⟩, ?_⟩
    rw [zipReadBytes_eq_payload E e hnd he]

/-- C4 witness: with distinct names, the `res` entry of a two-entry
archive is copied verbatim by the odex repackager. -/
theorem C4_witness :
    (⟨"res", 0, [5]⟩ : ZipEntry) ∈
      packagedEntries [⟨"classes.dex", 8, [0]⟩, ⟨"res", 0, [5]⟩] := by
  have h := C4_entry_fidelity [⟨"classes.dex", 8, [0]⟩, ⟨"res", 0, [5]⟩] (by decide)
  exact h.1 ⟨"res", 0, [5]⟩ (by decide) (by decide)

/-- C4 counterexample: with two entries both named `a`, the first one is
not excluded, yet no output entry equals it — the by-name read
`source_zip.read(item.filename)` returns the payload of the *last*
entry named `a`, so the copy of the first entry carries the wrong bytes. -/
theorem C4_counterexample :
    (⟨"a", 0, [1]⟩ : ZipEntry) ∈ [(⟨"a", 0, [1]⟩ : ZipEntry), ⟨"a", 0, [2]⟩] ∧
    deodexKeep ⟨"a", 0, [1]⟩ = true ∧
    (⟨"a", 0, [1]⟩ : ZipEntry) ∉ deodexEntries [⟨"a", 0, [1]⟩, ⟨"a", 0, [2]⟩] ∧
    (⟨"a", 0, [1]⟩ : ZipEntry) ∉ packagedEntries [⟨"a", 0, [1]⟩, ⟨"a", 0, [2]⟩] := by
  decide

/-- C6: stripping a valid archive without `classes.dex` yields a warning
result (not an error) and still commits the filtered output archive under
the output directory. -/
theorem C6_strip_warning_still_writes (cfg : Config) (fs : FS) (apkPath : PyPath)
    (outputDir : Option PyPath) (E : List ZipEntry)
    (h1 : fs.lookupFile apkPath = some (.zip E))
    (h2 : "classes.dex" ∉ zipNamelist E) :
    (deodex_apk cfg fs apkPath outputDir).2.status = "warning" ∧
    (deodex_apk cfg fs apkPath outputDir).2.outputPath =
      some (deodexedOutputPath outputDir apkPath) ∧
    (deodex_apk cfg fs apkPath outputDir).1.lookupFile
      (deodexedOutputPath outputDir apkPath) = some (.zip (deodexEntries E)) := by
  have hany : E.any (fun item => item.filename == "classes.dex") = false := by
    rw [List.any_eq_false]
    intro e he
    simp only [beq_iff_eq]
    intro heq
    exact h2 ((mem_zipNamelist "classes.dex" E).mpr ⟨e, he, heq⟩)
  rw [deodex_apk_zip cfg fs apkPath outputDir E h1, hany]
  exact ⟨rfl, rfl, FS.lookupFile_writeFile_self _ _ _⟩

/-- C6 witness: stripping a one-entry archive holding only `res` warns
and writes the filtered archive. -/
theorem C6_witness :
    (deodex_apk demoConfig ⟨[(["x.apk"], .zip [⟨"res", 0, [1]⟩])], []⟩
      ["x.apk"] none).2.status = "warning" ∧
    (deodex_apk demoConfig ⟨[(["x.apk"], .zip [⟨"res", 0, [1]⟩])], []⟩
      ["x.apk"] none).1.lookupFile [".", "x-deodexed.apk"] =
      some (.zip (deodexEntries [⟨"res", 0, [1]⟩])) := by
  have h := C6_strip_warning_still_writes demoConfig
    ⟨[(["x.apk"], .zip [⟨"res", 0, [1]⟩])], []⟩ ["x.apk"] none [⟨"res", 0, [1]⟩]
    (by decide) (by decide)
  exact ⟨h.1, h.2.2⟩

/-- C7: each odex run's trace is a prefix of extract-compile-repackage in
that order; a failed extraction yields an error result with the compiler
never invoked, and a non-success compile result is returned as is with
the repackager never invoked. -/
theorem C7_stage_sequencing (cfg : Config) (compiler : Compiler) (fs : FS)
    (apkPath : PyPath) (bcp : List String) (outputDir : Option PyPath) :
    ((odex_apk cfg compiler fs apkPath bcp outputDir).trace = [.extract] ∨
     (odex_apk cfg compiler fs apkPath bcp outputDir).trace = [.extract, .compile] ∨
     (odex_apk cfg compiler fs apkPath bcp outputDir).trace =
       [.extract, .compile, .package]) ∧
    (∀ e, (extract_dex cfg fs apkPath).2 = .error e →
      (odex_apk cfg compiler fs apkPath bcp outputDir).trace = [.extract] ∧
      (odex_apk cfg compiler fs apkPath bcp outputDir).result =
        ⟨"error", e.msg, none, none, some apkPath, none, none⟩) ∧
    (∀ dexP origP, (extract_dex cfg fs apkPath).2 = .ok (dexP, origP) →
      (odex_file cfg compiler (extract_dex cfg fs apkPath).1 dexP origP bcp).2.status ≠
        "success" →
      (odex_apk cfg compiler fs apkPath bcp outputDir).trace = [.extract, .compile] ∧
      (odex_apk cfg compiler fs apkPath bcp outputDir).result =
        (odex_file cfg compiler (extract_dex cfg fs apkPath).1 dexP origP bcp).2) := by
  refine ⟨?_, ?_, ?_⟩
  · rcases hext : (extract_dex cfg fs apkPath).2 with e | ⟨dexP, origP⟩
    · left
      simp only [odex_apk]
      rw [hext]
    · by_cases hst : (odex_file cfg compiler (extract_dex cfg fs apkPath).1
          dexP origP bcp).2.status = "success"
      · right; right
        simp only [odex_apk]
        rw [hext]
        dsimp only
        rw [if_pos hst]
      · right; left
        simp only [odex_apk]
        rw [hext]
        dsimp only
        rw [if_neg hst]
  · intro e hext
    have hrun : odex_apk cfg compiler fs apkPath bcp outputDir =
        { fs := odexCleanup cfg apkPath (extract_dex cfg fs apkPath).1,
          result := { status := "error", message := e.msg, originalApk := some apkPath },
          trace := [.extract] } := by
      simp only [odex_apk]
      rw [hext]
    rw [hrun]
    exact ⟨rfl, rfl⟩
  · intro dexP origP hext hst
    have hrun : odex_apk cfg compiler fs apkPath bcp outputDir =
        { fs := odexCleanup cfg apkPath (odex_file cfg compiler
            (extract_dex cfg fs apkPath).1 dexP origP bcp).1,
          result := (odex_file cfg compiler (extract_dex cfg fs apkPath).1
            dexP origP bcp).2,
          trace := [.extract, .compile] } := by
      simp only [odex_apk]
      rw [hext]
      dsimp only
      rw [if_neg hst]
    rw [hrun]
    exact ⟨rfl, rfl⟩

theorem roundTripNames (E : List ZipEntry) (A V : ZipEntry)
    (hA : strStartsWith A.filename "oat/" = true)
    (hV : strStartsWith V.filename "oat/" = true)
    (hoat : ∀ e ∈ E, strStartsWith e.filename "oat/" = false) :
    (∀ n, n ∈ zipNamelist (deodexEntries (packagedEntries E ++ [A, V])) ↔
      (n ∈ zipNamelist E ∧ n ≠ "classes.dex")) ∧
    (∀ n, (n ∈ zipNamelist (packagedEntries E ++ [A, V]) ∧
           n ∉ zipNamelist (deodexEntries (packagedEntries E ++ [A, V]))) ↔
      (n = A.filename ∨ n = V.filename)) := by
  have hstart : ∀ n, n ∈ zipNamelist E → strStartsWith n "oat/" = false := by
    intro n hn
    obtain ⟨e, he, heq⟩ := (mem_zipNamelist n E).mp hn
    rw [← heq]
    exact hoat e he
  have hP : zipNamelist (packagedEntries E ++ [A, V]) =
      (zipNamelist E).filter (fun nm => nm != "classes.dex") ++ [A.filename, V.filename] := by
    unfold zipNamelist at *
    rw [List.map_append]
    rw [show (packagedEntries E).map (fun e => e.filename) = zipNamelist (packagedEntries E)
      from rfl, zipNamelist_packagedEntries]
    rfl
  have hD : zipNamelist (deodexEntries (packagedEntries E ++ [A, V])) =
      ((zipNamelist E).filter (fun nm => nm != "classes.dex")).filter
        (fun nm => !(strStartsWith nm "oat/") && nm != "classes.dex") := by
    rw [zipNamelist_deodexEntries, hP, List.filter_append]
    have hAV : [A.filename, V.filename].filter
        (fun nm => !(strStartsWith nm "oat/") && nm != "classes.dex") = [] := by
      simp [List.filter_cons, hA, hV]
    rw [hAV, List.append_nil]
  constructor
  · intro n
    rw [hD]
    simp only [List.mem_filter, bne_iff_ne, ne_eq, Bool.and_eq_true, Bool.not_eq_true]
    constructor
    · rintro ⟨⟨hmem, hne⟩, _⟩
      exact ⟨hmem, by simpa using hne⟩
    · rintro ⟨hmem, hne⟩
      exact ⟨⟨hmem, by simpa using hne⟩, by simp [hstart n hmem], by simpa using hne⟩
  · intro n
    rw [hP, hD]
    constructor
    · rintro ⟨hmem, hnot⟩
      rw [List.mem_append] at hmem
      rcases hmem with hmem | hmem
      · exfalso
        apply hnot
        rw [List.mem_filter]
        refine ⟨hmem, ?_⟩
        have hmemE : n ∈ zipNamelist E := (List.mem_filter.mp hmem).1
        have hne : (n != "classes.dex") = true := (List.mem_filter.mp hmem).2
        simp [hstart n hmemE, hne]
      · simpa using hmem
    · intro hn
      constructor
      · rw [List.mem_append]
        right
        simpa using hn
      · intro hmem
        rw [List.mem_filter] at hmem
        have hp := hmem.2
        simp only [Bool.and_eq_true, Bool.not_eq_true] at hp
        rcases hn with hn | hn
        · rw [hn] at hp
          simp [hA] at hp
        · rw [hn] at hp
          simp [hV] at hp

/-- C3 (amended): for every valid archive holding `classes.dex` and *no*
entry under `oat/`, a successful odex run followed by the strip operation
removes exactly the two artifact entries and leaves an entry-name set
equal to the original's minus `classes.dex`.  (Without the no-`oat/`
hypothesis the strip also deletes the archive's own `oat/` entries.) -/
theorem C3_round_trip_strip (E : List ZipEntry) (ob vb : Bytes)
    (hdex : "classes.dex" ∈ zipNamelist E)
    (hoat : ∀ e ∈ E, strStartsWith e.filename "oat/" = false) :
    (odex_apk demoConfig (demoCompiler ob vb) ⟨[(["app.apk"], .zip E)], []⟩
        ["app.apk"] [] none).result.status = "success" ∧
    (odex_apk demoConfig (demoCompiler ob vb) ⟨[(["app.apk"], .zip E)], []⟩
        ["app.apk"] [] none).fs.lookupFile [".", "app-odexed.apk"] =
      some (.zip (packagedEntries E ++
        [⟨"oat/a/app.oat", ZIP_DEFLATED, ob⟩, ⟨"oat/a/app.vdex", ZIP_DEFLATED, vb⟩])) ∧
    (deodex_apk demoConfig
        (odex_apk demoConfig (demoCompiler ob vb) ⟨[(["app.apk"], .zip E)], []⟩
          ["app.apk"] [] none).fs
        [".", "app-odexed.apk"] none).1.lookupFile [".", "app-odexed-deodexed.apk"] =
      some (.zip (deodexEntries (packagedEntries E ++
        [⟨"oat/a/app.oat", ZIP_DEFLATED, ob⟩, ⟨"oat/a/app.vdex", ZIP_DEFLATED, vb⟩]))) ∧
    (∀ n, n ∈ zipNamelist (deodexEntries (packagedEntries E ++
        [⟨"oat/a/app.oat", ZIP_DEFLATED, ob⟩, ⟨"oat/a/app.vdex", ZIP_DEFLATED, vb⟩])) ↔
      (n ∈ zipNamelist E ∧ n ≠ "classes.dex")) ∧
    (∀ n, (n ∈ zipNamelist (packagedEntries E ++
        [⟨"oat/a/app.oat", ZIP_DEFLATED, ob⟩, ⟨"oat/a/app.vdex", ZIP_DEFLATED, vb⟩]) ∧
      n ∉ zipNamelist (deodexEntries (packagedEntries E ++
        [⟨"oat/a/app.oat", ZIP_DEFLATED, ob⟩, ⟨"oat/a/app.vdex", ZIP_DEFLATED, vb⟩]))) ↔
      (n = "oat/a/app.oat" ∨ n = "oat/a/app.vdex")) := by
  have hrun := odex_apk_success demoConfig (demoCompiler ob vb)
    ⟨[(["app.apk"], .zip E)], []⟩ ["app.apk"] [] none E ob vb rfl hdex (fun _ => rfl)
    (by decide) (by decide) (by decide)
  have hshO : shardName (PyPath.stem ["app.apk"] ++ ".oat") = "oat/a/app.oat" := rfl
  have hshV : shardName (PyPath.stem ["app.apk"] ++ ".vdex") = "oat/a/app.vdex" := rfl
  have hout : odexedOutputPath none ["app.apk"] = [".", "app-odexed.apk"] := rfl
  rw [hshO, hshV, hout] at hrun
  have hstat : (odex_apk demoConfig (demoCompiler ob vb) ⟨[(["app.apk"], .zip E)], []⟩
      ["app.apk"] [] none).result.status = "success" := by
    rw [hrun]
  have hlook : (odex_apk demoConfig (demoCompiler ob vb) ⟨[(["app.apk"], .zip E)], []⟩
      ["app.apk"] [] none).fs.lookupFile [".", "app-odexed.apk"] =
      some (.zip (packagedEntries E ++
        [⟨"oat/a/app.oat", ZIP_DEFLATED, ob⟩, ⟨"oat/a/app.vdex", ZIP_DEFLATED, vb⟩])) := by
    rw [hrun]
    dsimp only
    rw [lookup_odexCleanup demoConfig ["app.apk"] _ _ (by decide),
      FS.lookupFile_writeFile_self]
  have hdeo := deodex_apk_zip demoConfig
    (odex_apk demoConfig (demoCompiler ob vb) ⟨[(["app.apk"], .zip E)], []⟩
      ["app.apk"] [] none).fs
    [".", "app-odexed.apk"] none
    (packagedEntries E ++
      [⟨"oat/a/app.oat", ZIP_DEFLATED, ob⟩, ⟨"oat/a/app.vdex", ZIP_DEFLATED, vb⟩]) hlook
  have hdout : deodexedOutputPath none [".", "app-odexed.apk"] =
      [".", "app-odexed-deodexed.apk"] := rfl
  rw [hdout] at hdeo
  have hnames := roundTripNames E ⟨"oat/a/app.oat", ZIP_DEFLATED, ob⟩
    ⟨"oat/a/app.vdex", ZIP_DEFLATED, vb⟩
    (show strStartsWith "oat/a/app.oat" "oat/" = true by decide)
    (show strStartsWith "oat/a/app.vdex" "oat/" = true by decide) hoat
  refine ⟨hstat, hlook, ?_, hnames.1, hnames.2⟩
  rw [hdeo]
  exact FS.lookupFile_writeFile_self _ _ _

/-- C3 witness: a two-entry archive `classes.dex` + `res` survives the
round trip with exactly `res` left. -/
theorem C3_witness :
    (odex_apk demoConfig (demoCompiler [7] [8])
        ⟨[(["app.apk"], .zip [⟨"classes.dex", 8, [0]⟩, ⟨"res", 0, [1]⟩])], []⟩
        ["app.apk"] [] none).result.status = "success" ∧
    ("res" ∈ zipNamelist (deodexEntries (packagedEntries
        [⟨"classes.dex", 8, [0]⟩, ⟨"res", 0, [1]⟩] ++
        [⟨"oat/a/app.oat", ZIP_DEFLATED, [7]⟩, ⟨"oat/a/app.vdex", ZIP_DEFLATED, [8]⟩])) ↔
      ("res" ∈ zipNamelist [⟨"classes.dex", 8, [0]⟩, ⟨"res", 0, [1]⟩] ∧
        "res" ≠ "classes.dex")) := by
  have h := C3_round_trip_strip [⟨"classes.dex", 8, [0]⟩, ⟨"res", 0, [1]⟩] [7] [8]
    (by decide) (by decide)
  exact ⟨h.1, h.2.2.2.1 "res"⟩

/-- C3 counterexample: an archive whose own entry `oat/x/evil` sits under
the artifact prefix loses that entry in the round trip — the final entry
set is `[res]`, not the original minus `classes.dex`. -/
theorem C3_counterexample :
    ("oat/x/evil" ∈ zipNamelist
        [⟨"classes.dex", 8, [0]⟩, ⟨"oat/x/evil", 8, [1]⟩, ⟨"res", 8, [2]⟩] ∧
      "oat/x/evil" ≠ "classes.dex") ∧
    (odex_apk demoConfig (demoCompiler [7] [8])
        ⟨[(["app.apk"], .zip [⟨"classes.dex", 8, [0]⟩, ⟨"oat/x/evil", 8, [1]⟩,
            ⟨"res", 8, [2]⟩])], []⟩
        ["app.apk"] [] none).result.status = "success" ∧
    (deodex_apk demoConfig
        (odex_apk demoConfig (demoCompiler [7] [8])
          ⟨[(["app.apk"], .zip [⟨"classes.dex", 8, [0]⟩, ⟨"oat/x/evil", 8, [1]⟩,
              ⟨"res", 8, [2]⟩])], []⟩
          ["app.apk"] [] none).fs
        [".", "app-odexed.apk"] none).1.lookupFile [".", "app-odexed-deodexed.apk"] =
      some (.zip [⟨"res", 8, [2]⟩]) ∧
    "oat/x/evil" ∉ zipNamelist [(⟨"res", 8, [2]⟩ : ZipEntry)] := by
  decide

/-- C5: an odex batch over a valid archive, an archive without
`classes.dex`, and a missing path returns exactly three results — one
success, one `classes.dex`-not-found error, one file-not-found error —
with every failure captured as a result dict (the model is a total
function: nothing escapes the batch call). -/
theorem C5_failure_isolation (E₁ E₂ : List ZipEntry) (ob vb : Bytes) (bcp : List String)
    (h1 : "classes.dex" ∈ zipNamelist E₁)
    (h2 : "classes.dex" ∉ zipNamelist E₂) :
    (process_files demoConfig (demoCompiler ob vb)
        ⟨[(["good.apk"], .zip E₁), (["nodex.apk"], .zip E₂)], []⟩
        [["good.apk"], ["nodex.apk"], ["missing.apk"]] "odex" bcp none).2 =
      [⟨"success", "Odexed APK created at: ./good-odexed.apk", none, none, none,
         some [".", "good-odexed.apk"], none⟩,
       ⟨"error", "`classes.dex` not found in nodex.apk", none, none,
         some ["nodex.apk"], none, none⟩,
       ⟨"error", "APK file not found: missing.apk", none, none,
         some ["missing.apk"], none, none⟩] := by
  have hr1 := odex_apk_success demoConfig (demoCompiler ob vb)
    ⟨[(["good.apk"], .zip E₁), (["nodex.apk"], .zip E₂)], []⟩
    ["good.apk"] bcp none E₁ ob vb rfl h1 (fun _ => rfl)
    (by decide) (by decide) (by decide)
  have hlook2 : (odex_apk demoConfig (demoCompiler ob vb)
      ⟨[(["good.apk"], .zip E₁), (["nodex.apk"], .zip E₂)], []⟩
      ["good.apk"] bcp none).fs.lookupFile ["nodex.apk"] = some (.zip E₂) := by
    rw [hr1]
    dsimp only
    rw [lookup_odexCleanup demoConfig ["good.apk"] _ _ (by decide),
      FS.lookupFile_writeFile_ne _ _ _ _ (by decide), FS.lookupFile_mkdirP,
      FS.lookupFile_writeFile_ne _ _ _ _ (by decide),
      FS.lookupFile_writeFile_ne _ _ _ _ (by decide),
      FS.lookupFile_writeFile_ne _ _ _ _ (by decide), FS.lookupFile_mkdirP]
    rfl
  have hr2 := odex_apk_no_dex demoConfig (demoCompiler ob vb)
    (odex_apk demoConfig (demoCompiler ob vb)
      ⟨[(["good.apk"], .zip E₁), (["nodex.apk"], .zip E₂)], []⟩
      ["good.apk"] bcp none).fs
    ["nodex.apk"] bcp none E₂ hlook2 h2
  have hfile3 : (odexCleanup demoConfig ["nodex.apk"]
      ((odex_apk demoConfig (demoCompiler ob vb)
        ⟨[(["good.apk"], .zip E₁), (["nodex.apk"], .zip E₂)], []⟩
        ["good.apk"] bcp none).fs.mkdirP
        (scratchDir demoConfig ["nodex.apk"]))).isFile ["missing.apk"] = false := by
    rw [FS.isFile, lookup_odexCleanup demoConfig ["nodex.apk"] _ _ (by decide),
      FS.lookupFile_mkdirP]
    rw [hr1]
    dsimp only
    rw [lookup_odexCleanup demoConfig ["good.apk"] _ _ (by decide),
      FS.lookupFile_writeFile_ne _ _ _ _ (by decide), FS.lookupFile_mkdirP,
      FS.lookupFile_writeFile_ne _ _ _ _ (by decide),
      FS.lookupFile_writeFile_ne _ _ _ _ (by decide),
      FS.lookupFile_writeFile_ne _ _ _ _ (by decide), FS.lookupFile_mkdirP]
    rfl
  have hr3 := odex_apk_not_file demoConfig (demoCompiler ob vb)
    (odexCleanup demoConfig ["nodex.apk"]
      ((odex_apk demoConfig (demoCompiler ob vb)
        ⟨[(["good.apk"], .zip E₁), (["nodex.apk"], .zip E₂)], []⟩
        ["good.apk"] bcp none).fs.mkdirP
        (scratchDir demoConfig ["nodex.apk"])))
    ["missing.apk"] bcp none hfile3
  simp only [process_files, List.foldl_cons, List.foldl_nil, reduceIte]
  rw [hr2]
  dsimp only
  rw [hr3]
  dsimp only
  rw [hr1]
  rfl

/-- C5 witness: the batch at a concrete two-entry valid archive and a
one-entry dex-less archive. -/
theorem C5_witness :
    (process_files demoConfig (demoCompiler [7] [8])
        ⟨[(["good.apk"], .zip [⟨"classes.dex", 8, [0]⟩, ⟨"res", 0, [1]⟩]),
          (["nodex.apk"], .zip [⟨"res", 0, [1]⟩])], []⟩
        [["good.apk"], ["nodex.apk"], ["missing.apk"]] "odex" [] none).2 =
      [⟨"success", "Odexed APK created at: ./good-odexed.apk", none, none, none,
         some [".", "good-odexed.apk"], none⟩,
       ⟨"error", "`classes.dex` not found in nodex.apk", none, none,
         some ["nodex.apk"], none, none⟩,
       ⟨"error", "APK file not found: missing.apk", none, none,
         some ["missing.apk"], none, none⟩] :=
  C5_failure_isolation [⟨"classes.dex", 8, [0]⟩, ⟨"res", 0, [1]⟩] [⟨"res", 0, [1]⟩]
    [7] [8] [] (by decide) (by decide)
